import Mathlib

/-!
# Verification of the LHT diagnostic engine (`lht_engine.py`)

A shallow embedding of the TELOS-RUN diagnostic pipeline: spiral
assignment, quadrant mapping, pattern-seed detection, echo tracing,
gravity-sync centrality scoring, Comp-435 compression detection,
Urim/Thummim validation and the fractal filter.

Conventions of the embedding:
* Python strings are Lean `String`; keyword matching works on the
  lowercased character list (`strLower`), mirroring `str.lower()` and the
  substring operator `in` / `str.index`.
* Operations that can raise in Python (`str.index`, `list[i]`, `max` on a
  possibly empty sequence) are `Option`-valued; an `Option.none` models a
  raised exception.  Totality of the pipeline is then a theorem.
* The float comparisons `pos < len(text) * 0.2` and `pos < len(text) * 0.5`
  are embedded as the exact tests `5 * pos < len` and `2 * pos < len`;
  these agree with the IEEE-754 evaluation for every text length up to
  200000 characters (checked exhaustively at the threshold positions), and
  `avg >= 5` on the mean of at most three list lengths is likewise exact.
* Python `list.sort` / `sorted` are stable; `List.insertionSort` of Mathlib
  is a stable sort for the same key order, hence extensionally identical.
-/

/-! ## String helpers -/

/-- Lowercase a string into its character list (Python `str.lower()`). -/
def strLower (s : String) : List Char := s.data.map Char.toLower

/-- Lowercase a string, staying a `String`. -/
def lowerS (s : String) : String := String.mk (strLower s)

/-- Character-list prefix test. -/
def isPrefixL : List Char → List Char → Bool
  | [], _ => true
  | _ :: _, [] => false
  | a :: as, b :: bs => a == b && isPrefixL as bs

/-- Substring containment, Python `needle in hay`. -/
def containsSub (needle : List Char) : List Char → Bool
  | [] => isPrefixL needle []
  | b :: bs => isPrefixL needle (b :: bs) || containsSub needle bs

/-- Index of the first occurrence of `needle` (Python `hay.index(needle)`);
`none` models the `ValueError` raised when absent. -/
def firstOccur (needle : List Char) : List Char → Option Nat
  | [] => if isPrefixL needle [] then some 0 else none
  | b :: bs =>
      if isPrefixL needle (b :: bs) then some 0
      else (firstOccur needle bs).map (· + 1)

/-- Python whitespace stripped by `str.strip()`. -/
def isPySpace (c : Char) : Bool :=
  c = ' ' || c = '\t' || c = '\n' || c = '\r' || c = '\x0b' || c = '\x0c'

/-- Python `str.strip()` on a character list. -/
def stripL (l : List Char) : List Char :=
  ((l.dropWhile isPySpace).reverse.dropWhile isPySpace).reverse

/-- Python `text.split(sep)` for a one-character separator (keeps empties). -/
def splitOnChar (sep : Char) : List Char → List (List Char)
  | [] => [[]]
  | c :: cs =>
      if c = sep then [] :: splitOnChar sep cs
      else
        match splitOnChar sep cs with
        | [] => [[c]]
        | r :: rs => (c :: r) :: rs

/-- Value of a digit run. -/
def digitsToNat (l : List Char) : Nat :=
  l.foldl (fun n c => 10 * n + (c.toNat - 48)) 0

/-- The digit run captured by the first match of the regex `(\d+):` in
`reference` (Python `re.search` + `int`): the maximal digit run immediately
preceding the first colon that is immediately preceded by a digit. -/
def chapterGo (run : List Char) : List Char → Option Nat
  | [] => none
  | c :: cs =>
      if c.isDigit then chapterGo (c :: run) cs
      else if c = ':' && !run.isEmpty then some (digitsToNat run.reverse)
      else chapterGo [] cs

/-- Chapter number extracted from a reference string, if any. -/
def chapterOf (s : String) : Option Nat := chapterGo [] s.data

/-! ## Enums (`Spiral`, `Quadrant`) -/

/-- Seven canonical spirals through Scripture. -/
inductive Spiral where
  | S1_CREATION
  | S2_COVENANT
  | S3_LAW
  | S4_KINGSHIP
  | S5_WISDOM
  | S6_CHRIST
  | S7_NEW_CREATION
deriving DecidableEq, Repr

/-- Numeric value of the Python enum member. -/
def Spiral.value : Spiral → Nat
  | .S1_CREATION => 1
  | .S2_COVENANT => 2
  | .S3_LAW => 3
  | .S4_KINGSHIP => 4
  | .S5_WISDOM => 5
  | .S6_CHRIST => 6
  | .S7_NEW_CREATION => 7

/-- The Python enum member name (`Spiral.name`). -/
def Spiral.pyName : Spiral → String
  | .S1_CREATION => "S1_CREATION"
  | .S2_COVENANT => "S2_COVENANT"
  | .S3_LAW => "S3_LAW"
  | .S4_KINGSHIP => "S4_KINGSHIP"
  | .S5_WISDOM => "S5_WISDOM"
  | .S6_CHRIST => "S6_CHRIST"
  | .S7_NEW_CREATION => "S7_NEW_CREATION"

/-- Four quadrants of movement. -/
inductive Quadrant where
  | SW
  | SE
  | NE
  | NW
deriving DecidableEq, Repr

/-- The Python enum value (`Quadrant.value`), a string. -/
def Quadrant.value : Quadrant → String
  | .SW => "SW"
  | .SE => "SE"
  | .NE => "NE"
  | .NW => "NW"

/-- Enumeration order of the `Quadrant` enum (Python iteration order). -/
def QUADRANTS : List Quadrant := [.SW, .SE, .NE, .NW]

/-! ## Spiral classifier (`assign_spiral`) -/

/-- `LHTDiagnosticEngine.assign_spiral`: assign a reference string to one of
the seven canonical spirals. -/
def assign_spiral (reference : String) : Spiral :=
  let rl := strLower reference
  if containsSub ("genesis".data) rl then
    match chapterOf reference with
    | some chapter => if chapter ≤ 11 then .S1_CREATION else .S2_COVENANT
    | none => .S2_COVENANT
  else if containsSub ("exodus".data) rl then .S2_COVENANT
  else if [ "leviticus", "numbers", "deuteronomy"
          ].any (fun b => containsSub b.data rl) then .S3_LAW
  else if [ "joshua", "judges", "ruth", "samuel", "kings"
          ].any (fun b => containsSub b.data rl) then .S4_KINGSHIP
  else if [ "job", "psalm", "proverb", "ecclesiastes",
            "song", "isaiah", "jeremiah", "lamentations",
            "ezekiel", "daniel", "hosea", "joel", "amos",
            "obadiah", "jonah", "micah", "nahum", "habakkuk",
            "zephaniah", "haggai", "zechariah", "malachi"
          ].any (fun b => containsSub b.data rl) then .S5_WISDOM
  else if ([ "matthew", "mark", "luke", "john"
           ].any (fun b => containsSub b.data rl)
           && containsSub ("john".data) rl
           && !([ "1 john", "2 john", "3 john"
                ].any (fun x => containsSub x.data rl))) then .S6_CHRIST
  else if [ "acts", "romans", "corinthians", "galatians",
            "ephesians", "philippians", "colossians",
            "thessalonians", "timothy", "titus", "philemon",
            "hebrews", "james", "peter", "john", "jude",
            "revelation"
          ].any (fun b => containsSub b.data rl) then .S7_NEW_CREATION
  else .S6_CHRIST

/-! ## Data structures -/

/-- One entry of the symbol lexicon. -/
structure SymbolData where
  meaning : String
  keywords : List String
  weight : Nat
deriving DecidableEq, Repr

/-- Per-quadrant score of one segment: count of distinct matched keywords
capped at 3, plus the matched keywords (uncapped). -/
structure QuadScore where
  score : Nat
  keywords : List String
deriving DecidableEq, Repr

/-- The per-segment score dictionary keyed by the four quadrants. -/
structure QuadScores where
  sw : QuadScore
  se : QuadScore
  ne : QuadScore
  nw : QuadScore
deriving DecidableEq, Repr

/-- Dictionary lookup. -/
def QuadScores.get (s : QuadScores) : Quadrant → QuadScore
  | .SW => s.sw
  | .SE => s.se
  | .NE => s.ne
  | .NW => s.nw

/-- `scores.items()` in Python dict insertion order. -/
def QuadScores.items (s : QuadScores) : List (Quadrant × QuadScore) :=
  [(.SW, s.sw), (.SE, s.se), (.NE, s.ne), (.NW, s.nw)]

/-- One scored segment of the passage. -/
structure SegmentScore where
  segment : String
  quadrant : Quadrant
  scores : QuadScores
deriving DecidableEq, Repr

/-- One evidence entry of the quadrant mapping. -/
structure Evidence where
  quadrant : String
  reason : String
deriving DecidableEq, Repr

/-- Result of QUAD-MAP analysis. -/
structure QuadrantMapping where
  primary_quadrant : Quadrant
  secondary_quadrant : Option Quadrant
  movement : String
  evidence : List Evidence
  segment_scores : List SegmentScore
deriving DecidableEq, Repr

/-- Identified symbol pattern.  The Python dataclass annotates `score` as
`float`, but every value assigned to it is the sum of four integers, so the
embedding uses `Nat`. -/
structure PatternSeed where
  symbol : String
  local_role : String
  support : List String
  score : Nat
  frequency : Nat
  structural_position : Nat
  theological_weight : Nat
deriving DecidableEq, Repr

/-- One spiral-role entry of an echo trace.  The field `ex` embeds the
`example` key of the Python dict (`example` is a Lean keyword). -/
structure SpiralRole where
  spiral : Nat
  role : String
  ex : String
deriving DecidableEq, Repr

/-- Position of the current passage on a symbol arc. -/
structure StageInfo where
  position : String
  reason : String
deriving DecidableEq, Repr

/-- Symbol arc across spirals. -/
structure EchoTrace where
  symbol : String
  spiral_roles : List SpiralRole
  overall_arc : String
  current_passage_stage : StageInfo
deriving DecidableEq, Repr

/-- Christ-centrality alignment. -/
structure GravitySync where
  score : Nat
  explanation : String
  christ_patterns : List String
deriving DecidableEq, Repr

/-- The three stage flags of a detected Comp-435 pattern. -/
structure Comp435Stages where
  stage_4 : Bool
  stage_3 : Bool
  stage_5 : Bool
deriving DecidableEq, Repr

/-- 4-to-3-to-5 compression pattern. -/
structure Comp435 where
  has_pattern : Bool
  mapping : Option String
  confidence : String
  stages : Option Comp435Stages
deriving DecidableEq, Repr

/-- Spiral vitality validation. -/
structure UrimThummim where
  urim : Bool
  thummim : Bool
  interpretation : String
deriving DecidableEq, Repr

/-- Fractal vs feedback classification. -/
structure FractalFilter where
  classification : String
  reasoning : String
  checklist_results : List (String × Bool)
deriving DecidableEq, Repr

/-- Complete TELOS-RUN diagnostic output. -/
structure TelosRun where
  reference : String
  spiral : Spiral
  quadrants : QuadrantMapping
  pattern_seeds : List PatternSeed
  echo_traces : List EchoTrace
  gravity_sync : GravitySync
  comp_435 : Comp435
  urim_thummim : UrimThummim
  fractal_filter : FractalFilter
  theological_summary : String
deriving DecidableEq, Repr

/-! ## Static tables -/

/-- `SYMBOL_LEXICON`: the core symbol table, in Python dict insertion
order. -/
def SYMBOL_LEXICON : List (String × SymbolData) :=
  [ ("LIGHT", ⟨"revelation / order", ["light", "lamp", "shine", "brightness", "dawn"], 3⟩),
    ("DARKNESS", ⟨"chaos / judgment", ["darkness", "dark", "shadow", "night", "gloom"], 3⟩),
    ("WATER", ⟨"life / chaos / cleansing", ["water", "waters", "sea", "river", "flood", "rain"], 3⟩),
    ("FIRE", ⟨"judgment / transformation", ["fire", "flame", "burn", "consume"], 3⟩),
    ("TREE", ⟨"life / choice / growth", ["tree", "trees", "branch", "branches"], 2⟩),
    ("GARDEN", ⟨"communion / presence", ["garden", "eden", "paradise"], 3⟩),
    ("MOUNTAIN", ⟨"revelation / covenant", ["mountain", "mount", "hill", "zion", "sinai"], 3⟩),
    ("WILDERNESS", ⟨"testing / exile", ["wilderness", "desert", "waste"], 2⟩),
    ("DUST", ⟨"mortality", ["dust", "ashes", "clay"], 2⟩),
    ("SPIRIT", ⟨"breath / empowerment", ["spirit", "breath", "wind", "ghost"], 3⟩),
    ("TEMPLE", ⟨"presence / structure", ["temple", "sanctuary", "house of god"], 3⟩),
    ("ALTAR", ⟨"sacrifice / mediation", ["altar", "altars"], 3⟩),
    ("VEIL", ⟨"separation / access", ["veil", "curtain", "vail"], 2⟩),
    ("LAMPSTAND", ⟨"illumination / Spirit", ["lampstand", "candlestick", "menorah"], 2⟩),
    ("BREAD", ⟨"communion / wisdom", ["bread", "loaves", "manna"], 3⟩),
    ("OIL", ⟨"anointing / Spirit", ["oil", "anoint", "anointed"], 2⟩),
    ("BLOOD", ⟨"covenant / atonement", ["blood", "bloodshed"], 3⟩),
    ("LAMB", ⟨"substitution / innocence", ["lamb", "lambs", "sheep"], 3⟩),
    ("PRIEST", ⟨"mediation", ["priest", "priests", "priesthood"], 2⟩),
    ("TABERNACLE", ⟨"mobile presence", ["tabernacle", "tent", "dwelling"], 2⟩),
    ("KING", ⟨"authority / rule", ["king", "kings", "monarch"], 3⟩),
    ("THRONE", ⟨"judgment / legitimacy", ["throne", "thrones"], 3⟩),
    ("SCEPTER", ⟨"rule / power", ["scepter", "sceptre", "rod"], 2⟩),
    ("CROWN", ⟨"honor / destiny", ["crown", "crowns", "diadem"], 2⟩),
    ("SWORD", ⟨"judgment / division", ["sword", "swords", "blade"], 2⟩),
    ("CITY", ⟨"people / identity", ["city", "cities", "jerusalem", "zion"], 2⟩),
    ("HOUSE", ⟨"lineage / establishment", ["house", "household", "dynasty"], 2⟩),
    ("GATE", ⟨"access / authority", ["gate", "gates", "door", "doors"], 2⟩),
    ("PATH", ⟨"direction / discipleship", ["path", "way", "ways", "road"], 2⟩),
    ("WINE", ⟨"joy / covenant blood", ["wine", "drink"], 2⟩),
    ("CUP", ⟨"destiny / suffering", ["cup", "cups"], 2⟩),
    ("VOICE", ⟨"revelation / calling", ["voice", "voices", "cry"], 2⟩),
    ("HAND", ⟨"action / authority", ["hand", "hands"], 1⟩),
    ("HEART", ⟨"intention / covenant interiorization", ["heart", "hearts"], 2⟩),
    ("SEED", ⟨"promise / future", ["seed", "seeds", "offspring"], 3⟩),
    ("EGYPT", ⟨"bondage", ["egypt", "egyptian"], 2⟩),
    ("BABYLON", ⟨"judgment / confusion", ["babylon", "babylonian", "babel"], 2⟩),
    ("EXILE", ⟨"fracture", ["exile", "exiled", "captivity", "captive"], 2⟩),
    ("RETURN", ⟨"restoration", ["return", "returned", "restore"], 2⟩),
    ("GATHERING", ⟨"redemption", ["gather", "gathered", "gathering"], 2⟩),
    ("CROSS", ⟨"death / obedience", ["cross", "crucify", "crucified"], 3⟩),
    ("RESURRECTION", ⟨"new creation", ["resurrection", "risen", "rose", "raised"], 3⟩),
    ("SHEPHERD", ⟨"guidance", ["shepherd", "shepherds", "pastor"], 2⟩),
    ("BRIDE", ⟨"people of God", ["bride", "bridegroom", "marriage", "wedding"], 2⟩),
    ("SON", ⟨"identity / inheritance", ["son", "sons", "child"], 2⟩),
    ("FIG", ⟨"covenant fruit / exposure", ["fig", "figs"], 2⟩),
    ("OLIVE", ⟨"anointing / endurance / Spirit", ["olive", "olives", "olivet"], 2⟩),
    ("VINE", ⟨"dependence / communion", ["vine", "vines", "vineyard"], 3⟩),
    ("FRUIT", ⟨"visible outcome", ["fruit", "fruits", "harvest"], 2⟩),
    ("THORNS", ⟨"curse / resistance", ["thorns", "thistles", "briars"], 2⟩) ]

/-- `QUADRANT_INDICATORS[Quadrant.SW]["keywords"]`. -/
def swKeywords : List String :=
  [ "grave", "pit", "sheol", "death", "destroyed", "consumed",
    "darkness", "deep", "wrath", "curse", "famine", "plague",
    "finished", "gave up", "die", "perish" ]

/-- `QUADRANT_INDICATORS[Quadrant.SE]["keywords"]`. -/
def seKeywords : List String :=
  [ "sin", "idolatry", "rebellion", "transgression", "adultery",
    "division", "scattered", "broken", "forsaken", "betray" ]

/-- `QUADRANT_INDICATORS[Quadrant.NE]["keywords"]`. -/
def neKeywords : List String :=
  [ "law", "commandment", "statute", "teaching", "wisdom",
    "proverb", "prophecy", "thus saith", "vision", "behold",
    "looked", "revelation" ]

/-- `QUADRANT_INDICATORS[Quadrant.NW]["keywords"]`. -/
def nwKeywords : List String :=
  [ "restore", "heal", "return", "gather", "rebuild", "plant",
    "comfort", "rejoice", "new", "renewed", "inheritance",
    "resurrection", "breath", "live", "life" ]

/-- Keyword table lookup by quadrant. -/
def quadrantKeywords : Quadrant → List String
  | .SW => swKeywords
  | .SE => seKeywords
  | .NE => neKeywords
  | .NW => nwKeywords

/-! ## Quadrant mapper (`quad_map`) -/

/-- Score one segment for one quadrant: one point per table keyword found in
the lowercased segment, capped at 3; the matched keywords are recorded. -/
def scoreQuadrant (keywords : List String) (segLower : List Char) : QuadScore :=
  let matched := keywords.filter (fun kw => containsSub kw.data segLower)
  ⟨min matched.length 3, matched⟩

/-- Python `max(items, key=...)` over quadrant scores: the FIRST item with
the maximal score wins (later items replace only on a strictly greater
key). -/
def argmaxGo (best : Quadrant × QuadScore) :
    List (Quadrant × QuadScore) → Quadrant × QuadScore
  | [] => best
  | x :: xs => if best.2.score < x.2.score then argmaxGo x xs else argmaxGo best xs

/-- `max` over the items list; `none` models the `ValueError` on an empty
sequence. -/
def argmaxFirst : List (Quadrant × QuadScore) → Option (Quadrant × QuadScore)
  | [] => none
  | x :: xs => some (argmaxGo x xs)

/-- The stored excerpt: `segment[:50] + '...'` when longer than 50. -/
def excerptOf (seg : List Char) : String :=
  if 50 < seg.length then String.mk (seg.take 50) ++ "..." else String.mk seg

/-- Score a single segment against all four quadrants and assign it to the
highest-scoring one. -/
def scoreSegment (seg : List Char) : Option SegmentScore :=
  let segLower := seg.map Char.toLower
  let scores : QuadScores :=
    ⟨scoreQuadrant swKeywords segLower, scoreQuadrant seKeywords segLower,
     scoreQuadrant neKeywords segLower, scoreQuadrant nwKeywords segLower⟩
  match argmaxFirst scores.items with
  | none => none
  | some best => some ⟨excerptOf seg, best.1, scores⟩

/-- `_compress_movement` inner loop: remove consecutive duplicates. -/
def dedupConsec (cur : Quadrant) : List Quadrant → List Quadrant
  | [] => [cur]
  | q :: qs => if q = cur then dedupConsec cur qs else cur :: dedupConsec q qs

/-- `LHTDiagnosticEngine._compress_movement`. -/
def compressMovement (seq : List Quadrant) : String :=
  match seq with
  | [] => "Unknown"
  | q :: qs =>
    match dedupConsec q qs with
    | [c] => "Static " ++ c.value
    | compressed => String.intercalate "→" (compressed.map (·.value))

/-- Evidence generation: one entry per quadrant with a positive segment
count, in sorted order, citing up to three keywords of its first example
segment. -/
def evidenceFor (sortedQuads : List (Quadrant × Nat))
    (segScores : List SegmentScore) : List Evidence :=
  sortedQuads.filterMap (fun qc =>
    if 0 < qc.2 then
      match segScores.filter (fun s => s.quadrant = qc.1) with
      | [] => none
      | e :: _ =>
        let kws := ((e.scores.get qc.1).keywords).take 3
        some ⟨qc.1.value,
          if !kws.isEmpty then "Keywords: " ++ String.intercalate ", " kws
          else "Tonal match"⟩
    else none)

/-- Score every segment in order, propagating a raised exception. -/
def mapSegments : List (List Char) → Option (List SegmentScore)
  | [] => some []
  | s :: ss =>
    match scoreSegment s, mapSegments ss with
    | some x, some xs => some (x :: xs)
    | _, _ => none

/-- The accesses `sorted_quads[0]` and `sorted_quads[1]`; `none` models the
`IndexError` on a too-short list. -/
def pickTwo : List (Quadrant × Nat) →
    Option ((Quadrant × Nat) × (Quadrant × Nat))
  | p :: s :: _ => some (p, s)
  | _ => none

/-- `sorted(quad_counts.items(), key=count, reverse=True)`: the stable
descending sort of the four per-quadrant segment counts. -/
def sortedQuadsOf (segScores : List SegmentScore) : List (Quadrant × Nat) :=
  List.insertionSort (fun a b : Quadrant × Nat => b.2 ≤ a.2)
    (QUADRANTS.map (fun q =>
      (q, (segScores.filter (fun s => s.quadrant = q)).length)))

/-- Aggregation half of `quad_map`, applied to the scored segments. -/
def aggregateQuadMap (segScores : List SegmentScore) : Option QuadrantMapping :=
  (pickTwo (sortedQuadsOf segScores)).map (fun ps =>
    ⟨ps.1.1, if 0 < ps.2.2 then some ps.2.1 else none,
     compressMovement (segScores.map (·.quadrant)),
     evidenceFor (sortedQuadsOf segScores) segScores, segScores⟩)

/-- The segment list of `quad_map`: sentence pieces stripped of whitespace
with empties dropped, or the whole text if nothing remains. -/
def segmentsOf (text : String) : List (List Char) :=
  let segs0 := ((splitOnChar '.' text.data).map stripL).filter (fun s => !s.isEmpty)
  if segs0.isEmpty then [text.data] else segs0

/-- `LHTDiagnosticEngine.quad_map`: split the passage into sentence
segments, score and classify each, aggregate to primary/secondary quadrant,
movement signature and evidence.  `none` models an uncaught Python
exception. -/
def quad_mapE (text : String) : Option QuadrantMapping :=
  (mapSegments (segmentsOf text)).bind aggregateQuadMap

/-! ## Symbol pattern detector (`pattern_seed`) -/

/-- One scored symbol candidate (the intermediate dict of `pattern_seed`);
the field `matched` embeds the dict key `matches` (a Lean keyword). -/
structure Candidate where
  symbol : String
  score : Nat
  frequency : Nat
  structural_position : Nat
  theological_weight : Nat
  matched : List String
  meaning : String
deriving DecidableEq, Repr

/-- Score one lexicon symbol against the passage.  Outer `none` models the
`ValueError` of `text_lower.index`; inner `none` means the symbol simply
did not match and produces no candidate. -/
def scoreSymbol (tl : List Char) (tlen : Nat) (entry : String × SymbolData) :
    Option (Option Candidate) :=
  match entry.2.keywords.filter (fun kw => containsSub kw.data tl) with
  | [] => some none
  | m :: ms =>
    match firstOccur m.data tl with
    | none => none
    | some pos =>
      let matched := m :: ms
      let freq := min matched.length 3
      let struct := if 5 * pos < tlen then 3 else if 2 * pos < tlen then 2 else 1
      let theo := entry.2.weight
      let uniq := if 3 ≤ matched.length then 1 else 0
      some (some ⟨entry.1, freq + struct + theo + uniq, freq, struct, theo,
                  matched, entry.2.meaning⟩)

/-- Collect the candidates of every lexicon symbol, in lexicon order,
propagating a raised exception. -/
def collectCandidates (tl : List Char) (tlen : Nat) :
    List (String × SymbolData) → Option (List Candidate)
  | [] => some []
  | e :: es =>
    match scoreSymbol tl tlen e with
    | none => none
    | some none => collectCandidates tl tlen es
    | some (some c) => (collectCandidates tl tlen es).map (c :: ·)

/-- All symbol candidates of a passage. -/
def candidateList (text : String) : Option (List Candidate) :=
  collectCandidates (strLower text) text.length SYMBOL_LEXICON

/-- Render a kept candidate as a `PatternSeed`. -/
def mkSeed (c : Candidate) : PatternSeed :=
  { symbol := c.symbol,
    local_role := c.meaning ++ " (appears as: " ++
      String.intercalate ", " (c.matched.take 2) ++ ")",
    support := [ "Mentioned " ++ toString c.matched.length ++ " time(s)",
                 "Theological weight: " ++ toString c.theological_weight ++ "/3" ],
    score := c.score,
    frequency := c.frequency,
    structural_position := c.structural_position,
    theological_weight := c.theological_weight }

/-- Sort key order of `candidates.sort(key=..., reverse=True)`: descending
by total score; `insertionSort` is stable, like Python sort. -/
def candOrder (a b : Candidate) : Prop := b.score ≤ a.score

instance : DecidableRel candOrder := fun a b => Nat.decLe b.score a.score

instance : IsTotal Candidate candOrder :=
  ⟨fun a b => (Nat.le_total b.score a.score).imp id id⟩

instance : IsTrans Candidate candOrder :=
  ⟨fun _ _ _ hab hbc => Nat.le_trans hbc hab⟩

/-- `LHTDiagnosticEngine.pattern_seed`: sort candidates by descending score
and keep, among the first three, those with total score at least 4. -/
def pattern_seedE (text : String) : Option (List PatternSeed) :=
  (candidateList text).map (fun cands =>
    (((List.insertionSort candOrder cands).take 3).filter
      (fun c => 4 ≤ c.score)).map mkSeed)

/-! ## Symbol arc tracer (`echo_trace`) -/

/-- Curated spiral roles of `WATER`. -/
def waterRoles : List SpiralRole :=
  [ ⟨1, "chaos waters separated, flood judgment", "Gen 1:2; Gen 6-9"⟩,
    ⟨2, "Red Sea deliverance, testing waters", "Exod 14; Exod 17"⟩,
    ⟨3, "ritual washings, purity", "Lev 11-15"⟩,
    ⟨4, "drought/blessing cycles", "1 Kings 17-18"⟩,
    ⟨5, "rivers of life promised", "Ezek 47; Ps 46"⟩,
    ⟨6, "living water offered by Christ", "John 4; John 7"⟩,
    ⟨7, "river of life from throne", "Rev 22"⟩ ]

/-- Curated spiral roles of `SPIRIT`. -/
def spiritRoles : List SpiralRole :=
  [ ⟨1, "hovering over chaos, creative breath", "Gen 1:2"⟩,
    ⟨2, "selective empowerment", "Num 11"⟩,
    ⟨3, "linked to prophecy", "Deut 34"⟩,
    ⟨4, "empowering kings/prophets", "1 Sam 16"⟩,
    ⟨5, "promised future outpouring", "Ezek 36-37; Joel 2"⟩,
    ⟨6, "descends on Christ, promised to believers", "Matt 3; John 14-16"⟩,
    ⟨7, "poured out on church", "Acts 2; Rom 8"⟩ ]

/-- Curated spiral roles of `LAMB`. -/
def lambRoles : List SpiralRole :=
  [ ⟨1, "Abel\x27s offering", "Gen 4"⟩,
    ⟨2, "Passover lamb", "Exod 12"⟩,
    ⟨3, "daily sacrifices", "Lev 1-7"⟩,
    ⟨4, "temple system", "1 Kings 8"⟩,
    ⟨5, "led to slaughter prophecy", "Isa 53"⟩,
    ⟨6, "John\x27s \x27Lamb of God\x27", "John 1:29"⟩,
    ⟨7, "Lamb on throne", "Rev 5"⟩ ]

/-- Default arc for symbols without a curated mapping. -/
def defaultRoles : List SpiralRole :=
  [ ⟨1, "prototype appearance", "Genesis"⟩,
    ⟨2, "covenant context", "Exodus"⟩,
    ⟨3, "law framework", "Leviticus"⟩,
    ⟨4, "kingdom application", "Kings"⟩,
    ⟨5, "wisdom/prophetic development", "Prophets"⟩,
    ⟨6, "Christ fulfillment", "Gospels"⟩,
    ⟨7, "church/new creation", "Revelation"⟩ ]

/-- `LHTDiagnosticEngine._get_symbol_spiral_roles`: `roles_map.get(symbol,
roles_map["DEFAULT"])`. -/
def getSymbolSpiralRoles (symbol : String) : List SpiralRole :=
  if symbol = "WATER" then waterRoles
  else if symbol = "SPIRIT" then spiritRoles
  else if symbol = "LAMB" then lambRoles
  else defaultRoles

/-- `LHTDiagnosticEngine._derive_symbol_arc`. -/
def deriveSymbolArc (symbol : String) (roles : List SpiralRole) : String :=
  let early := ((roles.get? 0).map (·.role)).getD "prototype"
  let mid := ((roles.get? 3).map (·.role)).getD "development"
  let late := ((roles.get? 6).map (·.role)).getD "fulfillment"
  symbol ++ " moves from " ++ early ++ " → " ++ mid ++ " → " ++ late

/-- `LHTDiagnosticEngine._place_on_arc`. -/
def placeOnArc (currentSpiral : Spiral) (roles : List SpiralRole) : StageInfo :=
  let n := currentSpiral.value
  let position :=
    if n ≤ 2 then "Early-stage / Prototype"
    else if n ≤ 4 then "Mid-stage / Development"
    else if n = 5 then "Prophetic promise"
    else if n = 6 then "Christ fulfillment"
    else "Church application / New Creation"
  let reason := ((roles.find? (fun r => r.spiral = n)).map (·.role)).getD
    "Standard progression"
  ⟨position, reason⟩

/-- `LHTDiagnosticEngine.echo_trace`: trace a symbol arc across all seven
spirals. -/
def echo_trace (symbol : String) (currentSpiral : Spiral) : EchoTrace :=
  let roles := getSymbolSpiralRoles symbol
  ⟨symbol, roles, deriveSymbolArc symbol roles, placeOnArc currentSpiral roles⟩

/-! ## Centrality scorer (`gravity_sync`) -/

/-- Tier-1 keywords: direct Christ events (score 3). -/
def DIRECT_CHRIST : List String :=
  ["crucif", "cross", "finished", "resurrection", "risen"]

/-- Tier-2 symbol names: strong typology (score 2). -/
def STRONG_TYPES : List String :=
  ["lamb", "blood", "sacrifice", "altar", "priest", "atonement"]

/-- Tier-3 symbol names: light messianic hints (score 1). -/
def LIGHT_HINTS : List String :=
  ["seed", "crown", "king", "son", "shepherd"]

/-- `LHTDiagnosticEngine.gravity_sync`: Christ-centrality score (0-3) by a
strict cascading tier priority. -/
def gravity_sync (text : String) (seeds : List PatternSeed) : GravitySync :=
  let tl := strLower text
  let direct := DIRECT_CHRIST.filter (fun p => containsSub p.data tl)
  if !direct.isEmpty then
    ⟨3, "Direct Christ event present", direct⟩
  else
    let strong := ((seeds.filter
      (fun s => lowerS s.symbol ∈ STRONG_TYPES)).map (·.symbol))
    if !strong.isEmpty then
      ⟨2, "Strong sacrificial typology present", strong⟩
    else
      let light := ((seeds.filter
        (fun s => lowerS s.symbol ∈ LIGHT_HINTS)).map (·.symbol))
      if !light.isEmpty then
        ⟨1, "Light messianic hints present", light⟩
      else ⟨0, "No clear Christ-pattern detected", []⟩

/-! ## Compression pattern detector (`comp_435`) -/

/-- Stage-4 (lack/chaos) indicator words. -/
def STAGE4_WORDS : List String :=
  ["without", "empty", "nothing", "darkness", "void", "lack",
   "toil", "night", "labor"]

/-- Stage-3 (divine word/act) indicator words. -/
def STAGE3_WORDS : List String :=
  ["god said", "lord said", "commanded", "spoke", "word",
   "thus saith", "behold"]

/-- Stage-5 (grace/overflow) indicator words. -/
def STAGE5_WORDS : List String :=
  ["filled", "overflow", "abundance", "multiply", "blessed",
   "feast", "rest", "rejoice", "new"]

/-- `LHTDiagnosticEngine.comp_435`: test the 4-3-5 compression pattern. -/
def comp_435 (text : String) : Comp435 :=
  let tl := strLower text
  let has4 := STAGE4_WORDS.any (fun w => containsSub w.data tl)
  let has3 := STAGE3_WORDS.any (fun w => containsSub w.data tl)
  let has5 := STAGE5_WORDS.any (fun w => containsSub w.data tl)
  let hasPattern := has4 && has3 && has5
  if hasPattern then
    ⟨true, some "4: chaos/lack → 3: divine word/act → 5: grace/overflow",
     "Medium", some ⟨has4, has3, has5⟩⟩
  else ⟨false, none, "Low", none⟩

/-! ## Dual validator (`urim_thummim`) -/

/-- `LHTDiagnosticEngine.urim_thummim`.  The Python test
`avg_appearances >= 5` divides the role-count sum by `len(traces)`; with at
most three traces of at most seven roles the float test is exactly
`sum >= 5 * len(traces)`. -/
def urim_thummim (_seeds : List PatternSeed) (traces : List EchoTrace)
    (gravity : GravitySync) : UrimThummim :=
  let urim :=
    if 0 < traces.length then
      5 * traces.length ≤ (traces.map (·.spiral_roles.length)).sum
    else false
  let thummim := 2 ≤ gravity.score
  let interp :=
    if urim && thummim then "Fully alive, coherent, and completed spiral"
    else if urim && !thummim then "Real pattern but still open / unresolved"
    else if !urim && thummim then "Sealed mystery; not fully revealed"
    else "Likely false spiral or over-interpretation"
  ⟨urim, thummim, interp⟩

/-! ## Structural classifier (`fractal_filter`) -/

/-- `LHTDiagnosticEngine.fractal_filter`: five-criterion fractal vs
feedback classification. -/
def fractal_filter (seeds : List PatternSeed) (traces : List EchoTrace) :
    FractalFilter :=
  let echoDensity := !traces.isEmpty &&
    traces.all (fun t => 3 ≤ t.spiral_roles.length)
  let crossReach := !traces.isEmpty &&
    traces.any (fun t => 5 ≤ t.spiral_roles.length)
  let theoLoad := seeds.any (fun s => 2 ≤ s.theological_weight)
  let controls := decide (2 ≤ seeds.length)
  let bidirectional := decide (0 < seeds.length)
  let checklist : List (String × Bool) :=
    [ ("echo_density", echoDensity),
      ("cross_spiral_reach", crossReach),
      ("theological_load", theoLoad),
      ("controls", controls),
      ("bidirectional", bidirectional) ]
  let satisfied := (checklist.filter (·.2)).length
  if 3 ≤ satisfied then
    ⟨"Fractal", "Pattern satisfies " ++ toString satisfied ++
      "/5 fractal criteria", checklist⟩
  else
    ⟨"Likely Feedback", "Only " ++ toString satisfied ++
      "/5 criteria satisfied; likely over-interpretation", checklist⟩

/-! ## Summary generation and the orchestrator (`telos_run`) -/

/-- `LHTDiagnosticEngine.generate_summary`. -/
def generate_summary (spiral : Spiral) (quadrants : QuadrantMapping)
    (seeds : List PatternSeed) (gravity : GravitySync) : String :=
  let seedNames := (seeds.take 3).map (·.symbol)
  let s1 := "This passage sits in " ++ spiral.pyName ++ ", " ++
    "moving through " ++ quadrants.movement ++ ". "
  let s2 :=
    if !seedNames.isEmpty then
      s1 ++ "The dominant symbols are " ++
        String.intercalate ", " seedNames ++ ". "
    else s1
  s2 ++
    (if gravity.score = 3 then
      "This directly reveals Christ\x27s redemptive work."
    else if gravity.score = 2 then
      "This strongly foreshadows the Cross pattern through sacrificial typology."
    else if gravity.score = 1 then
      "This hints at the larger narrative arc pointing toward Christ."
    else
      "This passage contributes to the broader biblical narrative.")

/-- Assemble the aggregate report from the passage, the spiral and the two
stage outputs that already sit behind an `Option`. -/
def assembleRun (reference text : String) (quadrants : QuadrantMapping)
    (seeds : List PatternSeed) : TelosRun :=
  let spiral := assign_spiral reference
  let traces := (seeds.take 3).map (fun s => echo_trace s.symbol spiral)
  let gravity := gravity_sync text seeds
  { reference := reference, spiral := spiral, quadrants := quadrants,
    pattern_seeds := seeds, echo_traces := traces,
    gravity_sync := gravity, comp_435 := comp_435 text,
    urim_thummim := urim_thummim seeds traces gravity,
    fractal_filter := fractal_filter seeds traces,
    theological_summary := generate_summary spiral quadrants seeds gravity }

/-- `LHTDiagnosticEngine.telos_run`: the complete TELOS-RUN pipeline.
`none` models an uncaught Python exception in a stage. -/
def telos_runE (reference text : String) : Option TelosRun :=
  (quad_mapE text).bind (fun quadrants =>
    (pattern_seedE text).map (fun seeds =>
      assembleRun reference text quadrants seeds))

/-! ## Helper lemmas -/

/-- A contained needle has a first occurrence, so `str.index` cannot raise
after a successful `in` test. -/
theorem firstOccur_isSome_of_contains {needle hay : List Char}
    (h : containsSub needle hay = true) : (firstOccur needle hay).isSome = true := by
  induction hay with
  | nil =>
    simp only [containsSub] at h
    simp [firstOccur, h]
  | cons b bs ih =>
    simp only [containsSub] at h
    cases hp : isPrefixL needle (b :: bs) with
    | true => simp [firstOccur, hp]
    | false =>
      rw [hp] at h
      simp only [Bool.false_or] at h
      have h2 := ih h
      cases ho : firstOccur needle bs with
      | none => rw [ho] at h2; simp at h2
      | some p => simp [firstOccur, hp, ho]

/-- `scoreSymbol` never models a raised exception. -/
theorem scoreSymbol_isSome (tl : List Char) (tlen : Nat)
    (e : String × SymbolData) : (scoreSymbol tl tlen e).isSome = true := by
  unfold scoreSymbol
  cases hf : e.2.keywords.filter (fun kw => containsSub kw.data tl) with
  | nil => rfl
  | cons m ms =>
    have hmem : m ∈ e.2.keywords.filter (fun kw => containsSub kw.data tl) := by
      rw [hf]; exact List.mem_cons_self _ _
    have hcon : containsSub m.data tl = true := (List.mem_filter.mp hmem).2
    have hso := firstOccur_isSome_of_contains hcon
    cases ho : firstOccur m.data tl with
    | none => rw [ho] at hso; simp at hso
    | some pos => simp [ho]

/-- Candidate collection never models a raised exception. -/
theorem collectCandidates_isSome (tl : List Char) (tlen : Nat) :
    ∀ es : List (String × SymbolData),
      (collectCandidates tl tlen es).isSome = true
  | [] => rfl
  | e :: es => by
    have h1 := scoreSymbol_isSome tl tlen e
    have h2 := collectCandidates_isSome tl tlen es
    unfold collectCandidates
    cases hx : scoreSymbol tl tlen e with
    | none => rw [hx] at h1; simp at h1
    | some oc =>
      cases oc with
      | none => exact h2
      | some c =>
        cases hy : collectCandidates tl tlen es with
        | none => rw [hy] at h2; simp at h2
        | some cs => simp

/-- The symbol pattern detector is total. -/
theorem pattern_seedE_isSome (text : String) :
    (pattern_seedE text).isSome = true := by
  unfold pattern_seedE candidateList
  have h := collectCandidates_isSome (strLower text) text.length SYMBOL_LEXICON
  cases hy : collectCandidates (strLower text) text.length SYMBOL_LEXICON with
  | none => rw [hy] at h; simp at h
  | some cs => simp

/-- Segment scoring is total: the quadrant table always has four entries,
so Python `max` gets a nonempty sequence. -/
theorem scoreSegment_isSome (seg : List Char) :
    (scoreSegment seg).isSome = true := rfl

/-- Mapping segment scoring over the segment list is total. -/
theorem mapSegments_isSome : ∀ l : List (List Char),
    (mapSegments l).isSome = true
  | [] => rfl
  | s :: ss => by
    have h1 := scoreSegment_isSome s
    have h2 := mapSegments_isSome ss
    unfold mapSegments
    cases hx : scoreSegment s with
    | none => rw [hx] at h1; simp at h1
    | some x =>
      cases hy : mapSegments ss with
      | none => rw [hy] at h2; simp at h2
      | some xs => simp

/-- `Option.map` preserves definedness. -/
theorem isSome_omap {A B : Type} (f : A → B) (o : Option A) :
    (o.map f).isSome = o.isSome := by cases o <;> rfl

/-- `sorted_quads[0]` / `sorted_quads[1]` succeed on lists of length at
least two. -/
theorem pickTwo_isSome : ∀ l : List (Quadrant × Nat), 2 ≤ l.length →
    (pickTwo l).isSome = true
  | [], h => by simp at h
  | [_], h => by simp at h
  | _ :: _ :: _, _ => rfl

/-- The sorted aggregate list always has four entries. -/
theorem sortedQuadsOf_length (segScores : List SegmentScore) :
    (sortedQuadsOf segScores).length = 4 := by
  rw [sortedQuadsOf, List.length_insertionSort, List.length_map]
  rfl

/-- The aggregation half of the quadrant mapper is total. -/
theorem aggregateQuadMap_isSome (segScores : List SegmentScore) :
    (aggregateQuadMap segScores).isSome = true := by
  rw [aggregateQuadMap, isSome_omap]
  apply pickTwo_isSome
  rw [sortedQuadsOf_length]
  decide

/-- The quadrant mapper is total. -/
theorem quad_mapE_isSome (text : String) :
    (quad_mapE text).isSome = true := by
  have hms := mapSegments_isSome (segmentsOf text)
  rw [quad_mapE]
  cases hm : mapSegments (segmentsOf text) with
  | none => rw [hm] at hms; simp at hms
  | some segScores => simp [hm, aggregateQuadMap_isSome]

/-! ## Claim theorems -/

/-- C4 (failing input): the Gospel branch of `assign_spiral` demands a
`john` match, so a reference naming the Gospel of Mark together with a
later-priority New Testament book is classified stage 7, while the same
shape of reference naming the Gospel of John is classified stage 6. -/
theorem c4_gospel_branch_requires_john :
    assign_spiral "Mark 1; Acts 2" = Spiral.S7_NEW_CREATION ∧
    assign_spiral "John 1; Acts 2" = Spiral.S6_CHRIST := by
  constructor <;> decide

/-- C5: for every reference containing `genesis` whose chapter locator
parses, the spiral is stage 1 exactly when the chapter is at most 11 and
stage 2 otherwise. -/
theorem c5_genesis_chapter_split (reference : String) (chapter : Nat)
    (hgen : containsSub ("genesis".data) (strLower reference) = true)
    (hch : chapterOf reference = some chapter) :
    assign_spiral reference =
      (if chapter ≤ 11 then Spiral.S1_CREATION else Spiral.S2_COVENANT) := by
  rw [assign_spiral]
  simp [hgen, hch]

/-- C5 witness: `"Genesis 1:1"` is assigned stage 1. -/
theorem c5_genesis_chapter_split_witness :
    assign_spiral "Genesis 1:1" = Spiral.S1_CREATION := by
  have h := c5_genesis_chapter_split "Genesis 1:1" 1 (by decide) (by decide)
  simpa using h

/-- C6: the structural classifier returns `"Fractal"` exactly when at least
3 of its 5 checklist booleans hold, and `"Likely Feedback"` otherwise. -/
theorem c6_fractal_iff_three_of_five (seeds : List PatternSeed)
    (traces : List EchoTrace) :
    (fractal_filter seeds traces).checklist_results.length = 5 ∧
    ((fractal_filter seeds traces).classification = "Fractal" ↔
      3 ≤ (((fractal_filter seeds traces).checklist_results.filter
        (·.2)).length)) ∧
    (¬ 3 ≤ (((fractal_filter seeds traces).checklist_results.filter
        (·.2)).length) →
      (fractal_filter seeds traces).classification = "Likely Feedback") := by
  rw [fractal_filter]
  split
  case isTrue h =>
    exact ⟨rfl, iff_of_true rfl h, fun hn => absurd h hn⟩
  case isFalse h =>
    refine ⟨rfl, iff_of_false ?_ h, fun _ => rfl⟩
    intro hc
    simp at hc

/-- C6 witness: with no seeds and no traces, all five criteria fail and the
classification is `"Likely Feedback"`. -/
theorem c6_fractal_iff_three_of_five_witness :
    (fractal_filter [] []).classification = "Likely Feedback" := by
  exact (c6_fractal_iff_three_of_five [] []).2.2 (by decide)

/-- C9: the compression detector fires exactly when all three stage keyword
sets hit the text; a hit reports confidence `"Medium"` and the fixed
mapping string, a miss reports `"Low"` and no mapping. -/
theorem c9_comp435_all_three_sets (text : String) :
    ((comp_435 text).has_pattern = true ↔
      ((∃ w ∈ STAGE4_WORDS, containsSub w.data (strLower text) = true) ∧
       (∃ w ∈ STAGE3_WORDS, containsSub w.data (strLower text) = true) ∧
       (∃ w ∈ STAGE5_WORDS, containsSub w.data (strLower text) = true))) ∧
    ((comp_435 text).has_pattern = true →
      (comp_435 text).confidence = "Medium" ∧
      (comp_435 text).mapping =
        some "4: chaos/lack → 3: divine word/act → 5: grace/overflow") ∧
    ((comp_435 text).has_pattern = false →
      (comp_435 text).confidence = "Low" ∧
      (comp_435 text).mapping = none) := by
  rw [comp_435]
  cases h4 : STAGE4_WORDS.any (fun w => containsSub w.data (strLower text)) <;>
    cases h3 : STAGE3_WORDS.any (fun w => containsSub w.data (strLower text)) <;>
      cases h5 : STAGE5_WORDS.any (fun w => containsSub w.data (strLower text)) <;>
        simp_all [List.any_eq_true]

/-- C9 witness: a text hitting all three stage sets has the pattern with
confidence `"Medium"`. -/
theorem c9_comp435_all_three_sets_witness :
    (comp_435 "without word filled").has_pattern = true ∧
    (comp_435 "without word filled").confidence = "Medium" := by
  have h := c9_comp435_all_three_sets "without word filled"
  have hp : (comp_435 "without word filled").has_pattern = true :=
    h.1.mpr ⟨⟨"without", by decide, by decide⟩, ⟨"word", by decide, by decide⟩,
             ⟨"filled", by decide, by decide⟩⟩
  exact ⟨hp, (h.2.1 hp).1⟩

/-- C10: the pipeline is total — for every reference and passage text no
stage raises, and a complete report is produced. -/
theorem c10_pipeline_total (reference text : String) :
    (telos_runE reference text).isSome = true := by
  have hq := quad_mapE_isSome text
  have hs := pattern_seedE_isSome text
  rw [telos_runE]
  cases hqe : quad_mapE text with
  | none => rw [hqe] at hq; simp at hq
  | some q =>
    cases hse : pattern_seedE text with
    | none => rw [hse] at hs; simp at hs
    | some seeds => simp [hqe, hse]

/-- C10 witness: a concrete run of the pipeline succeeds. -/
theorem c10_pipeline_total_witness :
    (telos_runE "Genesis 1:1" "light and darkness").isSome = true :=
  c10_pipeline_total "Genesis 1:1" "light and darkness"

/-- The head of a nonempty filter result is a member satisfying the
predicate. -/
theorem head_of_filter_cons {A : Type} {p : A → Bool} {l xs : List A} {x : A}
    (h : l.filter p = x :: xs) : x ∈ l ∧ p x = true :=
  List.mem_filter.mp (h ▸ List.mem_cons_self x xs)

/-- An empty filter result means no member satisfies the predicate. -/
theorem no_sat_of_filter_nil {A : Type} {p : A → Bool} {l : List A}
    (h : l.filter p = []) {x : A} (hx : x ∈ l) : p x = false := by
  cases hpx : p x with
  | false => rfl
  | true =>
    have hmem := List.mem_filter.mpr ⟨hx, hpx⟩
    rw [h] at hmem
    exact absurd hmem (List.not_mem_nil x)

/-- C1: `gravity_sync` scores in `{0,1,2,3}` by a strict cascading tier
priority: any tier-1 text keyword forces 3 regardless of the seeds;
otherwise a tier-2 seed symbol gives 2; otherwise a tier-3 seed symbol
gives 1; otherwise 0. -/
theorem c1_gravity_cascade (text : String) (seeds : List PatternSeed) :
    ((gravity_sync text seeds).score = 0 ∨ (gravity_sync text seeds).score = 1 ∨
     (gravity_sync text seeds).score = 2 ∨ (gravity_sync text seeds).score = 3) ∧
    ((∃ p ∈ DIRECT_CHRIST, containsSub p.data (strLower text) = true) →
      (gravity_sync text seeds).score = 3) ∧
    ((∀ p ∈ DIRECT_CHRIST, containsSub p.data (strLower text) = false) →
      (∃ s ∈ seeds, lowerS s.symbol ∈ STRONG_TYPES) →
      (gravity_sync text seeds).score = 2) ∧
    ((∀ p ∈ DIRECT_CHRIST, containsSub p.data (strLower text) = false) →
      (∀ s ∈ seeds, lowerS s.symbol ∉ STRONG_TYPES) →
      (∃ s ∈ seeds, lowerS s.symbol ∈ LIGHT_HINTS) →
      (gravity_sync text seeds).score = 1) ∧
    ((∀ p ∈ DIRECT_CHRIST, containsSub p.data (strLower text) = false) →
      (∀ s ∈ seeds, lowerS s.symbol ∉ STRONG_TYPES) →
      (∀ s ∈ seeds, lowerS s.symbol ∉ LIGHT_HINTS) →
      (gravity_sync text seeds).score = 0) := by
  rw [gravity_sync]
  cases hd : DIRECT_CHRIST.filter (fun p => containsSub p.data (strLower text)) with
  | cons p ps =>
    obtain ⟨hpmem, hpc⟩ := head_of_filter_cons hd
    refine ⟨Or.inr (Or.inr (Or.inr rfl)), fun _ => rfl, ?_, ?_, ?_⟩ <;>
      (intro hall; exact absurd hpc (by rw [hall p hpmem]; decide))
  | nil =>
    have hdall : ∀ p ∈ DIRECT_CHRIST, containsSub p.data (strLower text) = false :=
      fun p hp => no_sat_of_filter_nil hd hp
    cases hs : seeds.filter (fun s => lowerS s.symbol ∈ STRONG_TYPES) with
    | cons s0 ss =>
      obtain ⟨hsmem, hsc⟩ := head_of_filter_cons hs
      have hsmem2 : lowerS s0.symbol ∈ STRONG_TYPES := of_decide_eq_true hsc
      refine ⟨Or.inr (Or.inr (Or.inl ?_)), ?_, fun _ _ => ?_, ?_, ?_⟩
      · simp
      · rintro ⟨p, hp, hc⟩
        exact absurd hc (by rw [hdall p hp]; decide)
      · simp
      · intro _ hnone _
        exact absurd hsmem2 (hnone s0 hsmem)
      · intro _ hnone _
        exact absurd hsmem2 (hnone s0 hsmem)
    | nil =>
      have hsall : ∀ s ∈ seeds, lowerS s.symbol ∉ STRONG_TYPES := by
        intro s hsmem hmem
        exact absurd (no_sat_of_filter_nil hs hsmem)
          (by rw [decide_eq_true hmem]; decide)
      cases hli : seeds.filter (fun s => lowerS s.symbol ∈ LIGHT_HINTS) with
      | cons s0 ss =>
        obtain ⟨hlmem, hlc⟩ := head_of_filter_cons hli
        have hlmem2 : lowerS s0.symbol ∈ LIGHT_HINTS := of_decide_eq_true hlc
        refine ⟨Or.inr (Or.inl ?_), ?_, ?_, fun _ _ _ => ?_, ?_⟩
        · simp
        · rintro ⟨p, hp, hc⟩
          exact absurd hc (by rw [hdall p hp]; decide)
        · rintro _ ⟨s, hsm, hmem⟩
          exact absurd hmem (hsall s hsm)
        · simp
        · intro _ _ hnone
          exact absurd hlmem2 (hnone s0 hlmem)
      | nil =>
        have hlall : ∀ s ∈ seeds, lowerS s.symbol ∉ LIGHT_HINTS := by
          intro s hsm hmem
          exact absurd (no_sat_of_filter_nil hli hsm)
            (by rw [decide_eq_true hmem]; decide)
        refine ⟨Or.inl ?_, ?_, ?_, ?_, fun _ _ _ => ?_⟩
        · simp
        · rintro ⟨p, hp, hc⟩
          exact absurd hc (by rw [hdall p hp]; decide)
        · rintro _ ⟨s, hsm, hmem⟩
          exact absurd hmem (hsall s hsm)
        · rintro _ _ ⟨s, hsm, hmem⟩
          exact absurd hmem (hlall s hsm)
        · simp

/-- C1 witness: a tier-1 keyword in the text forces score 3 even with no
seeds at all. -/
theorem c1_gravity_cascade_witness :
    (gravity_sync "he bore the cross" []).score = 3 :=
  (c1_gravity_cascade "he bore the cross" []).2.1
    ⟨"cross", by decide, by decide⟩

/-- C8: on the empty text the quadrant mapper produces exactly one segment
with all-zero scores, primary quadrant `SW` by the tie rule and no
secondary; there are no pattern seeds; the centrality score is 0; and the
structural classifier reports `"Likely Feedback"`. -/
theorem c8_empty_text_degenerates (reference : String) :
    ∃ r : TelosRun, telos_runE reference "" = some r ∧
      r.quadrants.segment_scores =
        [⟨"", Quadrant.SW, ⟨⟨0, []⟩, ⟨0, []⟩, ⟨0, []⟩, ⟨0, []⟩⟩⟩] ∧
      r.quadrants.primary_quadrant = Quadrant.SW ∧
      r.quadrants.secondary_quadrant = none ∧
      r.pattern_seeds = [] ∧
      r.gravity_sync.score = 0 ∧
      r.fractal_filter.classification = "Likely Feedback" := by
  have hq : quad_mapE "" = some ⟨Quadrant.SW, none, "Static SW",
      [⟨"SW", "Tonal match"⟩],
      [⟨"", Quadrant.SW, ⟨⟨0, []⟩, ⟨0, []⟩, ⟨0, []⟩, ⟨0, []⟩⟩⟩]⟩ := by decide
  have hs : pattern_seedE "" = some [] := by decide
  refine ⟨assembleRun reference "" ⟨Quadrant.SW, none, "Static SW",
      [⟨"SW", "Tonal match"⟩],
      [⟨"", Quadrant.SW, ⟨⟨0, []⟩, ⟨0, []⟩, ⟨0, []⟩, ⟨0, []⟩⟩⟩]⟩ [],
    ?_, rfl, rfl, rfl, rfl, rfl, rfl⟩
  unfold telos_runE
  rw [hq, hs]
  rfl

/-- C8 witness: the degeneration at the concrete run with an empty
reference. -/
theorem c8_empty_text_degenerates_witness :
    ∃ r : TelosRun, telos_runE "" "" = some r ∧
      r.quadrants.segment_scores =
        [⟨"", Quadrant.SW, ⟨⟨0, []⟩, ⟨0, []⟩, ⟨0, []⟩, ⟨0, []⟩⟩⟩] ∧
      r.quadrants.primary_quadrant = Quadrant.SW ∧
      r.quadrants.secondary_quadrant = none ∧
      r.pattern_seeds = [] ∧
      r.gravity_sync.score = 0 ∧
      r.fractal_filter.classification = "Likely Feedback" :=
  c8_empty_text_degenerates ""

/-- A seed keeps the total score of its candidate. -/
theorem mkSeed_score (c : Candidate) : (mkSeed c).score = c.score := rfl

/-- C2: the pattern detector returns at most 3 seeds, each with total score
at least 4, in descending score order. -/
theorem c2_pattern_seed_invariants (text : String) (seeds : List PatternSeed)
    (h : pattern_seedE text = some seeds) :
    seeds.length ≤ 3 ∧ (∀ s ∈ seeds, 4 ≤ s.score) ∧
    List.Pairwise (fun a b : PatternSeed => b.score ≤ a.score) seeds := by
  rw [pattern_seedE] at h
  cases hc : candidateList text with
  | none => rw [hc] at h; exact absurd h (by simp)
  | some cands =>
    rw [hc] at h
    simp only [Option.map_some'] at h
    obtain rfl := (Option.some.inj h).symm
    refine ⟨?_, ?_, ?_⟩
    · rw [List.length_map]
      exact le_trans (List.length_filter_le _ _) (List.length_take_le _ _)
    · intro s hs
      obtain ⟨c, hcmem, rfl⟩ := List.mem_map.mp hs
      rw [mkSeed_score]
      exact of_decide_eq_true (List.mem_filter.mp hcmem).2
    · have hsorted : List.Pairwise candOrder
          (List.insertionSort candOrder cands) :=
        List.sorted_insertionSort candOrder cands
      have hsub : List.Sublist
          (((List.insertionSort candOrder cands).take 3).filter
            (fun c => 4 ≤ c.score))
          (List.insertionSort candOrder cands) :=
        (List.filter_sublist _).trans (List.take_sublist _ _)
      have hpw := hsorted.sublist hsub
      exact List.pairwise_map.mpr (hpw.imp (fun hab => hab))

/-- C2 witness: the seeds of a concrete passage obey the invariants. -/
theorem c2_pattern_seed_invariants_witness :
    ∃ seeds, pattern_seedE "light" = some seeds ∧
      seeds.length ≤ 3 ∧ (∀ s ∈ seeds, 4 ≤ s.score) := by
  cases h : pattern_seedE "light" with
  | none => exact absurd h (by decide)
  | some seeds =>
    have h2 := c2_pattern_seed_invariants "light" seeds h
    exact ⟨seeds, rfl, h2.1, h2.2.1⟩

/-- Every candidate arises from scoring one lexicon entry. -/
theorem collectCandidates_mem (tl : List Char) (tlen : Nat) :
    ∀ (es : List (String × SymbolData)) (cands : List Candidate),
      collectCandidates tl tlen es = some cands →
      ∀ c ∈ cands, ∃ e ∈ es, scoreSymbol tl tlen e = some (some c)
  | [], cands, h => by
    simp only [collectCandidates] at h
    obtain rfl := (Option.some.inj h).symm
    intro c hc
    exact absurd hc (List.not_mem_nil c)
  | e :: es, cands, h => by
    rw [collectCandidates] at h
    cases hx : scoreSymbol tl tlen e with
    | none => rw [hx] at h; exact absurd h (by simp)
    | some oc =>
      rw [hx] at h
      cases oc with
      | none =>
        intro c hc
        obtain ⟨e2, he2, hsc⟩ := collectCandidates_mem tl tlen es cands h c hc
        exact ⟨e2, List.mem_cons_of_mem e he2, hsc⟩
      | some c0 =>
        cases hy : collectCandidates tl tlen es with
        | none => rw [hy] at h; exact absurd h (by simp)
        | some rest =>
          rw [hy] at h
          simp only [Option.map_some'] at h
          obtain rfl := (Option.some.inj h).symm
          intro c hc
          rcases List.mem_cons.mp hc with rfl | hc2
          · exact ⟨e, List.mem_cons_self e es, hx⟩
          · obtain ⟨e2, he2, hsc⟩ := collectCandidates_mem tl tlen es rest hy c hc2
            exact ⟨e2, List.mem_cons_of_mem e he2, hsc⟩

/-- The structural-position score recorded by `scoreSymbol` is the
three-band function of the first occurrence of the first matched keyword. -/
theorem scoreSymbol_struct_band (tl : List Char) (tlen : Nat)
    (e : String × SymbolData) (c : Candidate)
    (h : scoreSymbol tl tlen e = some (some c))
    (m : String) (ms : List String) (p : Nat)
    (hm : c.matched = m :: ms) (hp : firstOccur m.data tl = some p) :
    c.structural_position =
      (if 5 * p < tlen then 3 else if 2 * p < tlen then 2 else 1) := by
  rw [scoreSymbol] at h
  cases hf : e.2.keywords.filter (fun kw => containsSub kw.data tl) with
  | nil => rw [hf] at h; exact absurd h (by simp)
  | cons m0 ms0 =>
    rw [hf] at h
    cases ho : firstOccur m0.data tl with
    | none => simp only [ho] at h; exact absurd h (by simp)
    | some p0 =>
      simp only [ho, Option.some.injEq] at h
      obtain rfl := h.symm
      have hm0 : m0 = m := (List.cons.inj hm).1
      rw [hm0] at ho
      rw [hp] at ho
      obtain rfl := Option.some.inj ho
      rfl

/-- C3: for every symbol candidate of a passage, the structural-position
component is 3 when the first occurrence of the first matched keyword lies
in the first 20% of the text, 2 when it lies in the first 50%, and 1
otherwise. -/
theorem c3_structural_position (text : String) (cands : List Candidate)
    (h : candidateList text = some cands) :
    ∀ c ∈ cands, ∀ (m : String) (ms : List String) (p : Nat),
      c.matched = m :: ms →
      firstOccur m.data (strLower text) = some p →
      c.structural_position =
        (if 5 * p < text.length then 3
         else if 2 * p < text.length then 2 else 1) := by
  intro c hc m ms p hm hp
  rw [candidateList] at h
  obtain ⟨e, _, hsc⟩ :=
    collectCandidates_mem (strLower text) text.length SYMBOL_LEXICON cands h c hc
  exact scoreSymbol_struct_band (strLower text) text.length e c hsc m ms p hm hp

/-- C3 witness: in `"xx light"` the keyword `light` first occurs at index
3 of 8, inside the first 50% but not the first 20%, so the structural score
is 2. -/
theorem c3_structural_position_witness :
    ∃ cands, candidateList "xx light" = some cands ∧
      ∃ c ∈ cands, c.structural_position = 2 := by
  have h : candidateList "xx light" =
      some [⟨"LIGHT", 6, 1, 2, 3, ["light"], "revelation / order"⟩] := by decide
  refine ⟨_, h, ⟨"LIGHT", 6, 1, 2, 3, ["light"], "revelation / order"⟩,
    List.mem_singleton.mpr rfl, ?_⟩
  have h2 := c3_structural_position "xx light" _ h _
    (List.mem_singleton.mpr rfl) "light" [] 3 rfl (by decide)
  exact h2.trans (by decide)

/-- Every symbol arc — curated or default — has exactly 7 spiral-role
entries. -/
theorem getSymbolSpiralRoles_length (s : String) :
    (getSymbolSpiralRoles s).length = 7 := by
  by_cases h1 : s = "WATER" <;> by_cases h2 : s = "SPIRIT" <;>
    by_cases h3 : s = "LAMB" <;>
      simp [getSymbolSpiralRoles, h1, h2, h3, waterRoles, spiritRoles,
        lambRoles, defaultRoles]

/-- The traced roles of `echo_trace` are the symbol arc. -/
theorem echo_trace_roles (symbol : String) (sp : Spiral) :
    (echo_trace symbol sp).spiral_roles = getSymbolSpiralRoles symbol := rfl

/-- With at least one seed and traces that all carry 7 roles, the fractal
filter classifies `"Fractal"`: echo density, cross-spiral reach and
bidirectionality already satisfy 3 of the 5 criteria. -/
theorem fractal_of_full_traces (seeds : List PatternSeed)
    (traces : List EchoTrace) (hseeds : seeds ≠ []) (htr : traces ≠ [])
    (h7 : ∀ t ∈ traces, t.spiral_roles.length = 7) :
    (fractal_filter seeds traces).classification = "Fractal" := by
  rw [fractal_filter]
  have hE : traces.isEmpty = false := by
    cases traces with
    | nil => exact absurd rfl htr
    | cons a l => rfl
  have hAll : (traces.all (fun t => 3 ≤ t.spiral_roles.length)) = true := by
    rw [List.all_eq_true]
    intro t ht
    rw [decide_eq_true_eq, h7 t ht]
    decide
  have hAny : (traces.any (fun t => 5 ≤ t.spiral_roles.length)) = true := by
    rw [List.any_eq_true]
    obtain ⟨t, ts, rfl⟩ : ∃ t ts, traces = t :: ts := by
      cases traces with
      | nil => exact absurd rfl htr
      | cons a l => exact ⟨a, l, rfl⟩
    refine ⟨t, List.mem_cons_self t ts, ?_⟩
    rw [decide_eq_true_eq, h7 t (List.mem_cons_self t ts)]
    decide
  have hB : decide (0 < seeds.length) = true := by
    cases seeds with
    | nil => exact absurd rfl hseeds
    | cons a l => exact decide_eq_true (Nat.succ_pos _)
  simp only [hE, hAll, hAny, hB, Bool.not_false, Bool.true_and]
  cases h3 : seeds.any (fun s => 2 ≤ s.theological_weight) <;>
    cases h4 : decide (2 ≤ seeds.length) <;> simp [h3, h4]

/-- C7: a TELOS run is classified `"Fractal"` exactly when at least one
pattern seed was detected; every echo trace carries exactly 7 spiral-role
entries, and with zero seeds all five fractal criteria are false. -/
theorem c7_fractal_iff_any_seed (reference text : String) (r : TelosRun)
    (h : telos_runE reference text = some r) :
    (r.fractal_filter.classification = "Fractal" ↔ r.pattern_seeds ≠ []) ∧
    (∀ t ∈ r.echo_traces, t.spiral_roles.length = 7) ∧
    (r.pattern_seeds = [] →
      ∀ e ∈ r.fractal_filter.checklist_results, e.2 = false) := by
  rw [telos_runE] at h
  cases hq : quad_mapE text with
  | none => rw [hq] at h; exact absurd h (by simp)
  | some q =>
    rw [hq] at h
    simp only [Option.some_bind] at h
    cases hs : pattern_seedE text with
    | none => rw [hs] at h; exact absurd h (by simp)
    | some seeds =>
      rw [hs] at h
      simp only [Option.map_some'] at h
      obtain rfl := (Option.some.inj h).symm
      cases seeds with
      | nil =>
        refine ⟨?_, ?_, ?_⟩
        · exact iff_of_false
            (fun hc => absurd
              (show ("Likely Feedback" : String) = "Fractal" from hc)
              (by decide))
            (fun hne => hne rfl)
        · exact fun t ht => absurd ht (List.not_mem_nil t)
        · have hck : ∀ e ∈ (fractal_filter ([] : List PatternSeed)
              ([] : List EchoTrace)).checklist_results, e.2 = false := by decide
          exact fun _ e he => hck e he
      | cons s ss =>
        have h7 : ∀ t ∈ ((s :: ss).take 3).map
            (fun x => echo_trace x.symbol (assign_spiral reference)),
            t.spiral_roles.length = 7 := by
          intro t ht
          obtain ⟨x, _, rfl⟩ := List.mem_map.mp ht
          rw [echo_trace_roles]
          exact getSymbolSpiralRoles_length x.symbol
        refine ⟨?_, h7, fun hnil => absurd hnil (List.cons_ne_nil s ss)⟩
        exact iff_of_true
          (fractal_of_full_traces (s :: ss) _ (List.cons_ne_nil s ss)
            (List.cons_ne_nil _ _) h7)
          (List.cons_ne_nil s ss)

/-- C7 witness: the run on text `"light"` detects one seed and is
classified `"Fractal"`. -/
theorem c7_fractal_iff_any_seed_witness :
    ∃ r, telos_runE "x" "light" = some r ∧
      r.fractal_filter.classification = "Fractal" := by
  cases h : telos_runE "x" "light" with
  | none => exact absurd h (by decide)
  | some r =>
    have hps : r.pattern_seeds ≠ [] := by
      have h2 : (telos_runE "x" "light").map TelosRun.pattern_seeds =
          some [⟨"LIGHT", "revelation / order (appears as: light)",
            ["Mentioned 1 time(s)", "Theological weight: 3/3"],
            7, 1, 3, 3⟩] := by decide
      rw [h, Option.map_some'] at h2
      rw [Option.some.inj h2]
      exact List.cons_ne_nil _ _
    exact ⟨r, rfl, (c7_fractal_iff_any_seed "x" "light" r h).1.mpr hps⟩
